import Mathlib

/-!
Verification development for the gpm-playlist incremental library-sync
pipeline (src/cron/lib_updater.py, src/playlist/models.py).

Modelling conventions, all translated from the source:
  - Opaque external string values (remote track ids, titles, artist names,
    art URLs, urlsafe user keys) never have their contents inspected by the
    pipeline, only compared for equality; they are modelled as natural-number
    tokens.
  - A batch fingerprint (myhash) in the source is
    base64(md5(join of the record ids with a separator)); the hash input is
    determined by the id sequence of the page, so the fingerprint is modelled
    by that id sequence itself (collision-free modelling of the digest).
  - update_lengths holds per-batch length products; the source serializes
    them as decimal strings and re-parses with long(), an exact round trip,
    so they are modelled directly as naturals.
  - to_datetime converts a microsecond-epoch value to a UTC datetime via
    utcfromtimestamp(int(ts)/1000000); this is an order-preserving injective
    change of representation (up to float precision far beyond any realistic
    timestamp), so datetimes are modelled by their microsecond values and
    to_datetime by the identity.
  - Python integers are arbitrary precision; all the counters involved
    (track counts, delete/merge counts, batch ordinals) are nonnegative at
    every call site, so they are modelled as Nat.
-/

/-- Model of to_datetime (src/cron/lib_updater.py line 63): microsecond
timestamps are kept in their microsecond representation, see the module
comment. -/
def to_datetime (timestamp : Nat) : Nat := timestamp

/-- The per-user aggregate run state mutated by count_updater: the fields of
models.User touched by the aggregation step (num_tracks, update_lengths,
updated_batches, num_deletes, num_merges). -/
structure UserState where
  num_tracks : Nat
  update_lengths : List Nat
  updated_batches : List (List Nat)
  num_deletes : Nat
  num_merges : Nat
deriving DecidableEq, Repr

/-- Model of count_updater (lines 199-217): the transactional aggregator
step. Returns the updated state together with the boolean the source
returns (True = counted, False = already counted). -/
def count_updater (u : UserState) (num : Nat) (len_prod_piece : Nat)
    (myhash : List Nat) (nd nm : Nat) : UserState × Bool :=
  if myhash ∉ u.updated_batches then
    ({ num_tracks := u.num_tracks + num,
       update_lengths := u.update_lengths ++ [len_prod_piece],
       updated_batches := u.updated_batches ++ [myhash],
       num_deletes := u.num_deletes + nd,
       num_merges := u.num_merges + nm }, true)
  else
    (u, false)

/-- One batch's contribution as handed to count_updater. -/
structure Contribution where
  num : Nat
  len_prod_piece : Nat
  myhash : List Nat
  num_deletes : Nat
  num_merges : Nat
deriving DecidableEq, Repr

/-- State effect of delivering one batch contribution through count_updater. -/
def apply_batch (u : UserState) (c : Contribution) : UserState :=
  (count_updater u c.num c.len_prod_piece c.myhash c.num_deletes c.num_merges).1

/-- Delivering the same batch contribution n times in sequence. -/
def deliverN : Nat → UserState → Contribution → UserState
  | 0, u, _ => u
  | n + 1, u, c => deliverN n (apply_batch u c) c

lemma count_updater_of_mem (u : UserState) (num lp : Nat) (h : List Nat)
    (nd nm : Nat) (hmem : h ∈ u.updated_batches) :
    count_updater u num lp h nd nm = (u, false) := by
  simp [count_updater, hmem]

lemma mem_apply_batch (u : UserState) (c : Contribution) :
    c.myhash ∈ (apply_batch u c).updated_batches := by
  unfold apply_batch count_updater
  by_cases hmem : c.myhash ∈ u.updated_batches
  · simp [hmem]
  · simp [hmem]

lemma deliverN_of_mem (n : Nat) (u : UserState) (c : Contribution)
    (hmem : c.myhash ∈ u.updated_batches) : deliverN n u c = u := by
  induction n with
  | zero => rfl
  | succ k ih =>
    have happ : apply_batch u c = u := by
      unfold apply_batch
      rw [count_updater_of_mem u c.num c.len_prod_piece c.myhash
        c.num_deletes c.num_merges hmem]
    show deliverN k (apply_batch u c) c = u
    rw [happ, ih]

/-- C2: a duplicate fingerprint makes the aggregator step a strict no-op
(state returned unchanged, reported as already counted), and delivering the
same batch contribution one or N times yields the same final state
(in particular the same track_count and list of length products) as a single
delivery. -/
theorem c2_idempotent_aggregation :
    (∀ (u : UserState) (num lp : Nat) (h : List Nat) (nd nm : Nat),
        h ∈ u.updated_batches → count_updater u num lp h nd nm = (u, false)) ∧
    (∀ (n : Nat) (u : UserState) (c : Contribution),
        deliverN (n + 1) u c = deliverN 1 u c) := by
  refine ⟨count_updater_of_mem, ?_⟩
  intro n u c
  show deliverN n (apply_batch u c) c = deliverN 1 u c
  rw [deliverN_of_mem n (apply_batch u c) c (mem_apply_batch u c)]
  rfl

/-- Witness for C2 at a concrete state whose ledger already holds the
delivered fingerprint. -/
theorem c2_idempotent_aggregation_witness :
    count_updater
      { num_tracks := 2, update_lengths := [7], updated_batches := [[5]],
        num_deletes := 0, num_merges := 1 } 3 9 [5] 1 1 =
    ({ num_tracks := 2, update_lengths := [7], updated_batches := [[5]],
       num_deletes := 0, num_merges := 1 }, false) :=
  c2_idempotent_aggregation.1
    { num_tracks := 2, update_lengths := [7], updated_batches := [[5]],
      num_deletes := 0, num_merges := 1 } 3 9 [5] 1 1 (by decide)

/-- The continuation a finalizer invocation defers: either re-enqueue itself
with the same arguments, or hand the computed length product and the track
count on to calc_geomean. -/
inductive FinStep where
  | reschedule (user_id : Nat) (batch_num : Nat)
  | compute_geomean (user_id : Nat) (length_product : Nat) (num_tracks : Nat)
deriving DecidableEq, Repr

/-- Model of calc_length_product (lines 161-196): if fewer batches have
landed in the ledger than the expected total batch_num, defer itself with
identical arguments and leave the user state untouched; otherwise compute
the product of all per-batch length products (reduce with multiplication,
initial accumulator 1) and defer calc_geomean on it together with
user.num_tracks. The returned state is the (unmodified) user state: the
source never writes the user entity in either branch. -/
def calc_length_product (user_id : Nat) (u : UserState) (batch_num : Nat) :
    UserState × FinStep :=
  if u.updated_batches.length < batch_num then
    (u, FinStep.reschedule user_id batch_num)
  else
    (u, FinStep.compute_geomean user_id (u.update_lengths.foldl (· * ·) 1)
      u.num_tracks)

/-- C5: with fewer ledger entries than the expected batch count the
finalizer re-enqueues itself with identical arguments and leaves the run
state unchanged; once the ledger size reaches the expected count it proceeds
to the product computation. -/
theorem c5_finalizer_reschedules :
    ∀ (user_id : Nat) (u : UserState) (batch_num : Nat),
      (u.updated_batches.length < batch_num →
        calc_length_product user_id u batch_num =
          (u, FinStep.reschedule user_id batch_num)) ∧
      (batch_num ≤ u.updated_batches.length →
        calc_length_product user_id u batch_num =
          (u, FinStep.compute_geomean user_id
            (u.update_lengths.foldl (· * ·) 1) u.num_tracks)) := by
  intro user_id u batch_num
  constructor
  · intro hlt
    simp [calc_length_product, hlt]
  · intro hle
    simp [calc_length_product, Nat.not_lt.2 hle]

/-- Witness for C5: a ledger holding one fingerprint while two batches are
expected triggers a reschedule with identical arguments. -/
theorem c5_finalizer_reschedules_witness :
    calc_length_product 7
      { num_tracks := 3, update_lengths := [6], updated_batches := [[1]],
        num_deletes := 0, num_merges := 0 } 2 =
    ({ num_tracks := 3, update_lengths := [6], updated_batches := [[1]],
       num_deletes := 0, num_merges := 0 }, FinStep.reschedule 7 2) :=
  (c5_finalizer_reschedules 7
    { num_tracks := 3, update_lengths := [6], updated_batches := [[1]],
      num_deletes := 0, num_merges := 0 } 2).1 (by decide)

/-- Fuel-driven decimal digit count: numDigitsAux fuel n is the number of
base-10 digits of n as long as fuel is at least that digit count. -/
def numDigitsAux : Nat → Nat → Nat
  | _, 0 => 0
  | 0, _ + 1 => 0
  | f + 1, n + 1 => numDigitsAux f ((n + 1) / 10) + 1

/-- Number of significant decimal digits of n (0 for n = 0); fuel n is
always sufficient since any positive n has at most n digits. -/
def numDigits (n : Nat) : Nat := numDigitsAux n n

/-- Round n / d to the nearest integer, ties to even: the ROUND_HALF_EVEN
default rounding of Python's decimal contexts. Junk value at d = 0 (never
used with a zero divisor). -/
def roundHalfEvenDiv (n d : Nat) : Nat :=
  let q := n / d
  let r := n % d
  if 2 * r < d then q
  else if d < 2 * r then q + 1
  else if q % 2 = 0 then q else q + 1

/-- Round a nonnegative integer to prec significant decimal digits with the
half-even rule: the effect of a Python decimal context with precision prec
on an integer-valued result. -/
def roundSig (prec n : Nat) : Nat :=
  if numDigits n ≤ prec then n
  else
    let p := 10 ^ (numDigits n - prec)
    roundHalfEvenDiv n p * p

lemma numDigitsAux_le (fuel : Nat) : ∀ (n p : Nat), n < 10 ^ p →
    numDigitsAux fuel n ≤ p := by
  induction fuel with
  | zero =>
    intro n p _
    cases n <;> simp [numDigitsAux]
  | succ f ih =>
    intro n p hlt
    cases n with
    | zero => simp [numDigitsAux]
    | succ m =>
      cases p with
      | zero => omega
      | succ q =>
        have hdiv : (m + 1) / 10 < 10 ^ q := by
          have h10 : (m + 1 : Nat) < 10 * 10 ^ q := by
            calc (m + 1 : Nat) < 10 ^ (q + 1) := hlt
            _ = 10 * 10 ^ q := by ring
          exact Nat.div_lt_of_lt_mul h10
        have := ih ((m + 1) / 10) q hdiv
        show numDigitsAux f ((m + 1) / 10) + 1 ≤ q + 1
        omega

lemma roundSig_eq_self (prec n : Nat) (h : n < 10 ^ prec) :
    roundSig prec n = n := by
  have hle : numDigits n ≤ prec := numDigitsAux_le n n prec h
  unfold roundSig
  rw [if_pos hle]

/-- Model of calc_geomean (lines 120-138): gmean = ctx.power(product, power)
in a 64-significant-digit decimal context. On nonnegative integer arguments
this is the exact power rounded to 64 significant digits (half-even). Note
that the value the source actually passes in the power slot is
user.num_tracks, not its reciprocal. -/
def calc_geomean (length_product power : Nat) : Nat :=
  roundSig 64 (length_product ^ power)

/-- Model of calc_integer_form (lines 102-118): int(gmean.to_integral_value())
is the identity on the integer-valued decimals produced by calc_geomean on
integer inputs. -/
def calc_integer_form (gmean : Nat) : Nat := gmean

/-- The committed mean_duration_ms of a completed run: the composition
calc_length_product (product of the per-batch length products) followed by
calc_geomean (with user.num_tracks in the power slot, as the source wires
it) followed by calc_integer_form, whose result finalize_user stores as
user.avg_length. -/
def finalize_commit (u : UserState) : Nat :=
  calc_integer_form (calc_geomean (u.update_lengths.foldl (· * ·) 1) u.num_tracks)

/-- Model of calc_power (lines 141-158): ctx.divide(1, int(num_tracks)) in a
64-digit decimal context; a zero num_tracks raises decimal DivisionByZero.
The exact rational reciprocal stands in for the (unused) 64-digit rounded
quotient of the non-error branch. This function is dead code: no caller in
the source ever defers it. -/
def calc_power (num_tracks : Nat) : Except Unit ℚ :=
  if num_tracks = 0 then Except.error () else Except.ok (1 / (num_tracks : ℚ))

/-- C1: the spec's test vector, durations [1000, 2000, 4000, 8000] in two
batches of two (partial products 2000000 and 32000000, track count 4). The
code wires user.num_tracks into the power slot of calc_geomean instead of
deferring calc_power for the reciprocal, so the committed mean is
product ^ 4 = 16777216 * 10 ^ 48, not the claimed geometric mean 2828. -/
theorem c1_power_not_reciprocal :
    finalize_commit
      { num_tracks := 4, update_lengths := [2000000, 32000000],
        updated_batches := [[1], [2]], num_deletes := 0, num_merges := 2 } =
      16777216 * 10 ^ 48 ∧ (16777216 * 10 ^ 48 : Nat) ≠ 2828 := by
  constructor
  · show calc_integer_form
      (calc_geomean (List.foldl (· * ·) 1 [2000000, 32000000]) 4) = _
    have hfold : List.foldl (· * ·) 1 [2000000, 32000000] =
        (64000000000000 : Nat) := by norm_num [List.foldl]
    rw [hfold]
    show roundSig 64 ((64000000000000 : Nat) ^ 4) = _
    have hpow : (64000000000000 : Nat) ^ 4 = 16777216 * 10 ^ 48 := by
      norm_num
    rw [hpow, roundSig_eq_self]
    norm_num
  · norm_num

/-- C6: a run with zero tracks. The sole batch is an empty page, so the
ledger holds one fingerprint, update_lengths = [1] and num_tracks = 0. The
finalization the source actually wires commits 1 ^ 0 = 1 as the mean, not 0:
no special case for a zero track count exists anywhere on the path. The
reciprocal computation that the claim says is special-cased is calc_power,
which on a zero track count raises decimal DivisionByZero (and is dead code
besides). -/
theorem c6_zero_tracks_not_special_cased :
    finalize_commit
      { num_tracks := 0, update_lengths := [1], updated_batches := [[0]],
        num_deletes := 0, num_merges := 0 } = 1 ∧ (1 : Nat) ≠ 0 ∧
    calc_power 0 = Except.error () := by
  refine ⟨?_, by decide, rfl⟩
  show calc_integer_form (calc_geomean (List.foldl (· * ·) 1 [1]) 0) = 1
  show roundSig 64 ((1 : Nat) ^ 0) = 1
  rw [pow_zero, roundSig_eq_self]
  norm_num

/-- One record of a fetched page as load_batch reads it: the keys it
accesses directly (id, deleted, lastModifiedTimestamp, durationMillis).
String-valued ids are natural-number tokens per the module comment. -/
structure PageRec where
  id : Nat
  deleted : Bool
  lastModifiedTimestamp : Nat
  durationMillis : Nat
deriving DecidableEq, Repr

/-- The delete bucket of load_batch (lines 330-348): records are first
filtered by to_datetime(lastModifiedTimestamp) >= last_update and only then
split on the deleted flag; the None placeholders dropped by the cleanup step
leave exactly this filter. On a page where no record passes the timestamp
filter, the zip unpacking raises ValueError, which the source catches by
setting the buckets empty and the counts zero; that coincides with this
filter semantics, so both paths are the one definition. -/
def bucket_deletes (last_update : Nat) (chunk : List PageRec) : List PageRec :=
  chunk.filter (fun t =>
    decide (last_update ≤ to_datetime t.lastModifiedTimestamp) && t.deleted)

/-- The merge bucket of load_batch: records passing the timestamp filter
whose deleted flag is clear (the source keeps their ids as merge_ids and
re-materializes the matching records). -/
def bucket_merges (last_update : Nat) (chunk : List PageRec) : List PageRec :=
  chunk.filter (fun t =>
    decide (last_update ≤ to_datetime t.lastModifiedTimestamp) && !t.deleted)

/-- The records load_batch leaves untouched: everything the timestamp filter
drops, whether deleted or not. -/
def bucket_skips (last_update : Nat) (chunk : List PageRec) : List PageRec :=
  chunk.filter (fun t =>
    decide (to_datetime t.lastModifiedTimestamp < last_update))

/-- This batch's length product (lines 395-400): product of durationMillis
over the non-deleted records of the page, accumulator 1. -/
def length_product (chunk : List PageRec) : Nat :=
  (chunk.filter (fun t => !t.deleted)).foldl (fun a t => a * t.durationMillis) 1

/-- The id sequence the fingerprint digests (lines 321-328). -/
def myhash_input (chunk : List PageRec) : List Nat := chunk.map PageRec.id

/-- The tuple load_batch defers to update_num_tracks (lines 404-415). -/
structure HandOff where
  user_id : Nat
  num : Nat
  len_prod_piece : Nat
  myhash : List Nat
  final : Bool
  batch_num : Nat
  num_deletes : Nat
  num_merges : Nat
deriving DecidableEq, Repr

/-- Model of load_batch (lines 306-433) as the handoff it defers: num is
len(chunk) - len(deletes), the length product covers all non-deleted
records, last_tracks is final is not None, and the sub-counts are the
bucket sizes. -/
def load_batch (user_id last_update : Nat) (chunk : List PageRec)
    (final : Option Nat) (batch_num : Nat) : HandOff :=
  { user_id := user_id,
    num := chunk.length - (bucket_deletes last_update chunk).length,
    len_prod_piece := length_product chunk,
    myhash := myhash_input chunk,
    final := final.isSome,
    batch_num := batch_num,
    num_deletes := (bucket_deletes last_update chunk).length,
    num_merges := (bucket_merges last_update chunk).length }

lemma bucket_partition (last_update : Nat) (chunk : List PageRec) :
    (bucket_deletes last_update chunk).length +
      (bucket_merges last_update chunk).length +
      (bucket_skips last_update chunk).length = chunk.length := by
  induction chunk with
  | nil => rfl
  | cons a l ih =>
    by_cases h1 : last_update ≤ to_datetime a.lastModifiedTimestamp
    · have e0 : decide (last_update ≤ to_datetime a.lastModifiedTimestamp)
          = true := decide_eq_true h1
      have e3 : decide (to_datetime a.lastModifiedTimestamp < last_update)
          = false := decide_eq_false (by omega)
      cases h2 : a.deleted
      · simp [bucket_deletes, bucket_merges, bucket_skips,
          List.filter_cons, e0, e3, h2] at ih ⊢
        omega
      · simp [bucket_deletes, bucket_merges, bucket_skips,
          List.filter_cons, e0, e3, h2] at ih ⊢
        omega
    · have e0 : decide (last_update ≤ to_datetime a.lastModifiedTimestamp)
          = false := decide_eq_false h1
      have e3 : decide (to_datetime a.lastModifiedTimestamp < last_update)
          = true := decide_eq_true (by omega)
      simp [bucket_deletes, bucket_merges, bucket_skips,
        List.filter_cons, e0, e3] at ih ⊢
      omega

/-- A deleted record whose modification timestamp (0) is before the
watermark 10 used in the C3 counterexample. -/
def stale_deleted_rec : PageRec :=
  { id := 1, deleted := true, lastModifiedTimestamp := 0,
    durationMillis := 5000 }

/-- C3 counterexample: a record with the deletion flag set whose
modification timestamp (0) lies strictly before the watermark (10) is not
placed in the delete bucket; it lands with the skipped records, contrary to
the claim that deleted records are bucketed for deletion regardless of
their timestamp. -/
theorem c3_deleted_stale_record_skipped :
    bucket_deletes 10 [stale_deleted_rec] = [] ∧
    bucket_skips 10 [stale_deleted_rec] = [stale_deleted_rec] ∧
    stale_deleted_rec.deleted = true := by
  refine ⟨rfl, rfl, rfl⟩

/-- C3 amended: classification places a record in the delete bucket iff it
is deleted AND its modification timestamp is at or after the watermark, in
the merge bucket iff it is not deleted and its timestamp is at or after the
watermark, and skips every record (deleted or not) whose timestamp is
strictly before the watermark; the three buckets are pairwise disjoint and
their sizes sum to the page size. -/
theorem c3_classification_partition :
    ∀ (last_update : Nat) (chunk : List PageRec) (t : PageRec),
      (t ∈ bucket_deletes last_update chunk ↔
        t ∈ chunk ∧ t.deleted = true ∧
          last_update ≤ to_datetime t.lastModifiedTimestamp) ∧
      (t ∈ bucket_merges last_update chunk ↔
        t ∈ chunk ∧ t.deleted = false ∧
          last_update ≤ to_datetime t.lastModifiedTimestamp) ∧
      (t ∈ bucket_skips last_update chunk ↔
        t ∈ chunk ∧ to_datetime t.lastModifiedTimestamp < last_update) ∧
      ¬ (t ∈ bucket_deletes last_update chunk ∧
         t ∈ bucket_merges last_update chunk) ∧
      ¬ (t ∈ bucket_deletes last_update chunk ∧
         t ∈ bucket_skips last_update chunk) ∧
      ¬ (t ∈ bucket_merges last_update chunk ∧
         t ∈ bucket_skips last_update chunk) ∧
      (bucket_deletes last_update chunk).length +
        (bucket_merges last_update chunk).length +
        (bucket_skips last_update chunk).length = chunk.length := by
  intro last_update chunk t
  have hdel : t ∈ bucket_deletes last_update chunk ↔
      t ∈ chunk ∧ t.deleted = true ∧
        last_update ≤ to_datetime t.lastModifiedTimestamp := by
    simp [bucket_deletes, List.mem_filter, and_comm]
  have hmer : t ∈ bucket_merges last_update chunk ↔
      t ∈ chunk ∧ t.deleted = false ∧
        last_update ≤ to_datetime t.lastModifiedTimestamp := by
    simp [bucket_merges, List.mem_filter, and_comm]
  have hskp : t ∈ bucket_skips last_update chunk ↔
      t ∈ chunk ∧ to_datetime t.lastModifiedTimestamp < last_update := by
    simp [bucket_skips, List.mem_filter]
  refine ⟨hdel, hmer, hskp, ?_, ?_, ?_, bucket_partition last_update chunk⟩
  · rw [hdel, hmer]
    rintro ⟨⟨-, hd, -⟩, ⟨-, hnd, -⟩⟩
    simp [hd] at hnd
  · rw [hdel, hskp]
    rintro ⟨⟨-, -, hge⟩, ⟨-, hlt⟩⟩
    omega
  · rw [hmer, hskp]
    rintro ⟨⟨-, -, hge⟩, ⟨-, hlt⟩⟩
    omega

/-- A non-deleted record whose modification timestamp (0) is before the
watermark 10 used in the C4 counterexample. -/
def stale_live_rec : PageRec :=
  { id := 2, deleted := false, lastModifiedTimestamp := 0,
    durationMillis := 5000 }

/-- C4 counterexample: a page holding a single non-deleted record whose
timestamp (0) is before the watermark (10) is entirely skipped, so
num_merges = num_deletes = 0, yet the track-count value handed to the
aggregator is 1 = len(chunk) - len(deletes), not merges - deletes = 0. -/
theorem c4_delta_not_net :
    (load_batch 0 10 [stale_live_rec] none 1).num = 1 ∧
    (load_batch 0 10 [stale_live_rec] none 1).num_merges = 0 ∧
    (load_batch 0 10 [stale_live_rec] none 1).num_deletes = 0 ∧
    (1 : Nat) ≠ 0 - 0 := by
  refine ⟨rfl, rfl, rfl, by decide⟩

/-- C4 amended: the track-count value load_batch hands off is the page size
minus the delete-bucket size, equivalently num_merges plus the number of
skipped records (not num_merges - num_deletes); the num_deletes and
num_merges sub-counts are the respective bucket sizes. -/
theorem c4_delta_page_minus_deletes :
    ∀ (user_id last_update : Nat) (chunk : List PageRec)
      (final : Option Nat) (batch_num : Nat),
      (load_batch user_id last_update chunk final batch_num).num =
        chunk.length - (bucket_deletes last_update chunk).length ∧
      (load_batch user_id last_update chunk final batch_num).num =
        (bucket_merges last_update chunk).length +
          (bucket_skips last_update chunk).length ∧
      (load_batch user_id last_update chunk final batch_num).num_deletes =
        (bucket_deletes last_update chunk).length ∧
      (load_batch user_id last_update chunk final batch_num).num_merges =
        (bucket_merges last_update chunk).length := by
  intro user_id last_update chunk final batch_num
  refine ⟨rfl, ?_, rfl, rfl⟩
  have hpart := bucket_partition last_update chunk
  show chunk.length - (bucket_deletes last_update chunk).length = _
  omega

lemma foldl_mul_append_one (l : List Nat) :
    (l ++ [1]).foldl (· * ·) 1 = l.foldl (· * ·) 1 := by
  rw [List.foldl_append]
  simp

/-- C8: an empty page classifies into empty buckets without raising (the
ValueError of the empty zip unpacking is caught and yields empty buckets),
hands off a zero track-count delta, zero delete and merge counts and a
length product of 1, and aggregating such a contribution leaves the
committed run statistic unchanged. -/
theorem c8_empty_page_identity :
    (∀ (user_id last_update : Nat) (final : Option Nat) (batch_num : Nat),
      load_batch user_id last_update [] final batch_num =
        { user_id := user_id, num := 0, len_prod_piece := 1, myhash := [],
          final := final.isSome, batch_num := batch_num, num_deletes := 0,
          num_merges := 0 } ∧
      bucket_deletes last_update [] = [] ∧
      bucket_merges last_update [] = [] ∧
      bucket_skips last_update [] = []) ∧
    (∀ (u : UserState) (hsh : List Nat), hsh ∉ u.updated_batches →
      finalize_commit (count_updater u 0 1 hsh 0 0).1 = finalize_commit u) := by
  constructor
  · intro user_id last_update final batch_num
    exact ⟨rfl, rfl, rfl, rfl⟩
  · intro u hsh hmem
    rw [count_updater, if_pos hmem]
    have hfold := foldl_mul_append_one u.update_lengths
    simp [finalize_commit, calc_geomean, calc_integer_form, hfold]

/-- Witness for C8: aggregating the empty-page contribution into a concrete
fresh state leaves the committed statistic unchanged. -/
theorem c8_empty_page_identity_witness :
    finalize_commit
      (count_updater
        { num_tracks := 2, update_lengths := [6], updated_batches := [[4]],
          num_deletes := 0, num_merges := 0 } 0 1 [9] 0 0).1 =
    finalize_commit
      { num_tracks := 2, update_lengths := [6], updated_batches := [[4]],
        num_deletes := 0, num_merges := 0 } :=
  c8_empty_page_identity.2
    { num_tracks := 2, update_lengths := [6], updated_batches := [[4]],
      num_deletes := 0, num_merges := 0 } [9] (by decide)

/-- The dictionary keys whose direct indexing in make_entity raises KeyError
when absent. -/
inductive PyKey where
  | id
  | title
  | creationTimestamp
  | recentTimestamp
  | lastModifiedTimestamp
  | durationMillis
  | artist
  | album
deriving DecidableEq, Repr

/-- A raw gmusicapi record as make_entity reads it: every key optional
(present or absent); an art-ref key holds a list of dictionaries each
optionally carrying a url. String values are natural-number tokens per the
module comment. -/
structure RawTrack where
  id : Option Nat
  title : Option Nat
  creationTimestamp : Option Nat
  recentTimestamp : Option Nat
  lastModifiedTimestamp : Option Nat
  playCount : Option Nat
  durationMillis : Option Nat
  rating : Option Nat
  artist : Option Nat
  album : Option Nat
  artistArtRef : Option (List (Option Nat))
  albumArtRef : Option (List (Option Nat))
  discNumber : Option Nat
  totalDiscCount : Option Nat
  trackNumber : Option Nat
  totalTrackCount : Option Nat
  albumArtist : Option Nat
  year : Option Nat
  composer : Option Nat
  genre : Option Nat
  comment : Option Nat
deriving DecidableEq, Repr

/-- The persisted shape of a models.Track entity (src/playlist/models.py
lines 39-61) plus its key parts (parent, id). Note the class declares no
recent property at all, and rand_num is an ndb.ComputedProperty: stored,
but recomputed by the model on every write and not assignable. none stands
for an unset optional property; composer, genre and comment default to the
empty string, modelled by its token. -/
structure Track where
  parent : Nat
  id : Nat
  title : Nat
  disc_number : Option Nat
  total_disc_count : Option Nat
  track_number : Option Nat
  total_track_count : Option Nat
  artist : Option Nat
  artist_art : Option Nat
  album_artist : Option Nat
  album : Option Nat
  album_art : Option Nat
  year : Option Nat
  composer : Nat
  genre : Nat
  created : Nat
  modified : Nat
  play_count : Nat
  duration_millis : Nat
  rating : Nat
  comment : Nat
  partition : Option Nat
  holidays : List Nat
  rand_num : Nat
deriving DecidableEq, Repr

/-- How a make_entity invocation fails: KeyError on a directly indexed
absent key, or the models.Track constructor raising. -/
inductive MakeEntityErr where
  | keyErr (k : PyKey)
  | ctorRaises
deriving DecidableEq, Repr

/-- Model of make_entity (src/cron/lib_updater.py lines 246-303) against
the models.Track class it instantiates (src/playlist/models.py lines
39-61). Python evaluates every constructor argument first, in source
order, so an absent directly indexed key raises KeyError there: id, title,
creationTimestamp, recentTimestamp, lastModifiedTimestamp, durationMillis
(the int conversions pass through), then artist and album; playCount and
rating use dict .get with default 0, and rand_val is the fresh
random.randrange(2**32) draw of this materialization. When all eight keys
are present, the call models.Track(...) itself raises on every record: the
keyword recent names no property of models.Track (ndb Model
initialization raises AttributeError for an unknown property name), and
assigning the ComputedProperty rand_num raises ComputedPropertyError;
whichever fires first (Python 2 keyword order is unspecified), no entity
is ever constructed, and the suppressed optional extractions after the
constructor call (lines 265-296) are unreachable. -/
def make_entity (parent_key rand_val : Nat) (track : RawTrack) :
    Except MakeEntityErr Track :=
  match track.id with
  | none => Except.error (MakeEntityErr.keyErr PyKey.id)
  | some _ =>
  match track.title with
  | none => Except.error (MakeEntityErr.keyErr PyKey.title)
  | some _ =>
  match track.creationTimestamp with
  | none => Except.error (MakeEntityErr.keyErr PyKey.creationTimestamp)
  | some _ =>
  match track.recentTimestamp with
  | none => Except.error (MakeEntityErr.keyErr PyKey.recentTimestamp)
  | some _ =>
  match track.lastModifiedTimestamp with
  | none => Except.error (MakeEntityErr.keyErr PyKey.lastModifiedTimestamp)
  | some _ =>
  match track.durationMillis with
  | none => Except.error (MakeEntityErr.keyErr PyKey.durationMillis)
  | some _ =>
  match track.artist with
  | none => Except.error (MakeEntityErr.keyErr PyKey.artist)
  | some _ =>
  match track.album with
  | none => Except.error (MakeEntityErr.keyErr PyKey.album)
  | some _ => Except.error MakeEntityErr.ctorRaises

/-- A fully populated raw record: every key present. -/
def full_raw_track : RawTrack :=
  { id := some 1, title := some 2, creationTimestamp := some 3,
    recentTimestamp := some 4, lastModifiedTimestamp := some 5,
    playCount := some 6, durationMillis := some 7, rating := some 5,
    artist := some 8, album := some 9, artistArtRef := some [some 10],
    albumArtRef := some [some 11], discNumber := some 1,
    totalDiscCount := some 2, trackNumber := some 3,
    totalTrackCount := some 12, albumArtist := some 13, year := some 14,
    composer := some 15, genre := some 16, comment := some 17 }

/-- Whether a materialization outcome produced an entity. -/
def materializes (x : Except MakeEntityErr Track) : Bool :=
  match x with
  | Except.ok _ => true
  | Except.error _ => false

set_option maxHeartbeats 1600000 in
/-- C7: materialization never produces an entity. A record missing one of
the eight directly indexed keys (id, title, the three timestamps,
durationMillis, artist, album - so artist and album included, contrary to
the claim's optional list) raises KeyError during argument evaluation, and
a record with all eight present - the claim's success case - still raises,
inside the models.Track constructor, since the class declares no recent
property and rand_num is a computed property rejecting assignment: the
fully populated record errs with the constructor error, every record errs
with some error, and the constructor error occurs exactly when all eight
keys are present. -/
theorem c7_materializer_never_succeeds :
    make_entity 0 0 full_raw_track = Except.error MakeEntityErr.ctorRaises ∧
    (∀ (parent_key rand_val : Nat) (track : RawTrack),
      ∃ err, make_entity parent_key rand_val track = Except.error err) ∧
    (∀ (parent_key rand_val : Nat) (track : RawTrack),
      make_entity parent_key rand_val track =
          Except.error MakeEntityErr.ctorRaises ↔
        (track.id.isSome = true ∧ track.title.isSome = true ∧
         track.creationTimestamp.isSome = true ∧
         track.recentTimestamp.isSome = true ∧
         track.lastModifiedTimestamp.isSome = true ∧
         track.durationMillis.isSome = true ∧
         track.artist.isSome = true ∧ track.album.isSome = true)) := by
  refine ⟨rfl, ?_, ?_⟩
  · intro parent_key rand_val track
    obtain ⟨i, ti, cts, rts, mts, pc, d, ra, ar, al, aar, alar, dn, tdc, tn,
      ttc, aart, yr, cmp, gen, com⟩ := track
    cases i <;> cases ti <;> cases cts <;> cases rts <;> cases mts <;>
      cases d <;> cases ar <;> cases al <;> exact ⟨_, rfl⟩
  · intro parent_key rand_val track
    obtain ⟨i, ti, cts, rts, mts, pc, d, ra, ar, al, aar, alar, dn, tdc, tn,
      ttc, aart, yr, cmp, gen, com⟩ := track
    cases i <;> cases ti <;> cases cts <;> cases rts <;> cases mts <;>
      cases d <;> cases ar <;> cases al <;> simp [make_entity]

/-- C9 counterexample: materializing the identical fully populated record
twice, with random draws 0 and 1, produces no Track entities at all - both
invocations raise inside the models.Track constructor - so the claimed
pair of entities equal in every persisted field is never produced, and no
track-store write happens. -/
theorem c9_no_entities_produced :
    make_entity 0 0 full_raw_track = Except.error MakeEntityErr.ctorRaises ∧
    make_entity 0 1 full_raw_track = Except.error MakeEntityErr.ctorRaises ∧
    materializes (make_entity 0 0 full_raw_track) = false := by
  exact ⟨rfl, rfl, rfl⟩

/-- C9 amended: the materializer is trivially two-run deterministic: its
outcome is the same function of the owning user and the record whatever
random tie-break value each run draws, because every invocation raises
(KeyError for an absent indexed key, the constructor error otherwise)
before the draw can reach any persisted field, and it never produces an
entity, so no track-store write, converging or otherwise, ever occurs on
the merge path. -/
theorem c9_materializer_deterministic :
    (∀ (parent_key r1 r2 : Nat) (track : RawTrack),
      make_entity parent_key r1 track = make_entity parent_key r2 track) ∧
    (∀ (parent_key rand_val : Nat) (track : RawTrack),
      materializes (make_entity parent_key rand_val track) = false) := by
  constructor
  · intro parent_key r1 r2 track
    rfl
  · intro parent_key rand_val track
    obtain ⟨i, ti, cts, rts, mts, pc, d, ra, ar, al, aar, alar, dn, tdc, tn,
      ttc, aart, yr, cmp, gen, com⟩ := track
    cases i <;> cases ti <;> cases cts <;> cases rts <;> cases mts <;>
      cases d <;> cases ar <;> cases al <;> rfl

/-- A Python function signature as its call binding sees it: the number of
declared parameters and how many trailing ones have defaults. -/
structure PySig where
  nparams : Nat
  ndefaults : Nat
deriving DecidableEq, Repr

/-- Positional call binding succeeds iff the argument count is between the
number of parameters without defaults and the total parameter count. -/
def bindOk (sig : PySig) (nargs : Nat) : Bool :=
  decide (sig.nparams - sig.ndefaults ≤ nargs) && decide (nargs ≤ sig.nparams)

/-- Signature of update_num_tracks (line 220): eight parameters (user_id,
num, len_prod_piece, myhash, final, batch_num, num_deletes, num_merges),
none with a default. -/
def update_num_tracks_sig : PySig := { nparams := 8, ndefaults := 0 }

/-- Positional argument count of the deferred update_num_tracks call in
initialize_batch (lines 484-493): user_id, num_tracks, length_product,
myhash, last_tracks, batch_num (the queue keyword is consumed by defer). -/
def init_batch_defer_nargs : Nat := 6

/-- Positional argument count of the deferred update_num_tracks call in
load_batch (lines 404-415): the same six plus num_deletes and num_merges. -/
def load_batch_defer_nargs : Nat := 8

/-- Outcome of invoking a deferred task: the wrapped aggregation step runs
only if call binding succeeds, otherwise TypeError leaves the user state
untouched. -/
def run_deferred_update (sig : PySig) (nargs : Nat) (u : UserState)
    (c : Contribution) : UserState :=
  if bindOk sig nargs then apply_batch u c else u

/-- C10: the initial-sync path defers update_num_tracks with six positional
arguments against its eight default-free parameters, so call binding fails
with a TypeError on every invocation and the aggregation step never runs
for any initial-sync batch (the user state, ledger included, stays
untouched), while the incremental path's eight arguments bind fine. -/
theorem c10_init_batch_call_arity :
    bindOk update_num_tracks_sig init_batch_defer_nargs = false ∧
    bindOk update_num_tracks_sig load_batch_defer_nargs = true ∧
    (∀ (u : UserState) (c : Contribution),
      run_deferred_update update_num_tracks_sig init_batch_defer_nargs u c
        = u) := by
  refine ⟨rfl, rfl, ?_⟩
  intro u c
  rfl

/-- Witness for C3 at a concrete page: the bucket characterizations and the
partition equation evaluated on a one-record page. -/
theorem c3_classification_partition_witness :
    (bucket_deletes 10 [stale_deleted_rec]).length +
      (bucket_merges 10 [stale_deleted_rec]).length +
      (bucket_skips 10 [stale_deleted_rec]).length =
    ([stale_deleted_rec] : List PageRec).length :=
  (c3_classification_partition 10 [stale_deleted_rec]
    stale_deleted_rec).2.2.2.2.2.2
